import Mathlib

/-!
Shallow embedding of the product CRUD core of this repository.

Two front ends share the same SQLAlchemy `products` table:
* `src/tp1.py` — plain functions `validate_product`, `create_product`,
  `get_product`, `get_all_products`, `update_product`, `delete_product`
  (PyQt GUI glue is plumbing around them);
* `src/Part2/part2.py` — the SOAP `ProductService` with `validate_product`,
  `validate_id` and the four RPC methods returning strings.

Modelling choices, each taken from the source:
* a `Product` row is `(id, name, price, quantity)`; `quantity` is a Python
  int, modelled as `Int`. `price` is a Python IEEE float; the program only
  ever compares a price with `0` and stores it, so it is modelled as
  `PyFloat`: either `nan` — whose comparisons are all false, exactly as for
  the IEEE NaN that `float("nan")` produces and PostgreSQL accepts in a
  float8 column — or an ordinary value carried by an exact integer (the
  carrier of non-NaN values is irrelevant to a sign comparison);
* the store is the list of rows of the `products` table plus the sequence
  value the next `SERIAL` primary key will take (PostgreSQL sequences never
  reuse ids, matching `primary_key=True` on an `Integer` column);
* the column declaration `name = Column(String(100))` means the backend
  rejects any INSERT/UPDATE whose name is longer than 100 characters with a
  `SQLAlchemyError`; this constraint is part of the model;
* a backend fault during an operation is modelled by an explicit
  `fault : Option String` argument: `some m` means the store raises
  `SQLAlchemyError` with message `m` during that operation's store work
  (before any commit takes effect), `none` means the store behaves;
* every operation also reports how many sessions it opened
  (`SessionLocal()` calls), how many it closed (`session.close()` calls)
  and how many rollbacks it issued (`session.rollback()` calls), so that
  resource discipline is a provable observable.
-/

instance {ε α : Type} [DecidableEq ε] [DecidableEq α] :
    DecidableEq (Except ε α)
  | .error a, .error b =>
    if h : a = b then isTrue (by rw [h])
    else isFalse (fun hh => h (Except.error.inj hh))
  | .error _, .ok _ => isFalse (fun hh => Except.noConfusion hh)
  | .ok _, .error _ => isFalse (fun hh => Except.noConfusion hh)
  | .ok a, .ok b =>
    if h : a = b then isTrue (by rw [h])
    else isFalse (fun hh => h (Except.ok.inj hh))

/-- A Python float as this program observes one. The code only compares
prices with `0` and stores them, so a float is either `nan` — for which
`<`, `≤`, `≥` are all false, as IEEE-754 prescribes — or an ordinary value
abstracted by an exact integer. -/
inductive PyFloat where
  | nan
  | num (val : Int)
deriving Repr, DecidableEq

/-- IEEE `<`: false whenever either side is NaN. -/
def PyFloat.lt : PyFloat → PyFloat → Bool
  | .nan, _ => false
  | _, .nan => false
  | .num a, .num b => decide (a < b)

/-- IEEE `≤`: false whenever either side is NaN. -/
def PyFloat.le : PyFloat → PyFloat → Bool
  | .nan, _ => false
  | _, .nan => false
  | .num a, .num b => decide (a ≤ b)

instance : LT PyFloat := ⟨fun a b => PyFloat.lt a b = true⟩

instance : LE PyFloat := ⟨fun a b => PyFloat.le a b = true⟩

instance (a b : PyFloat) : Decidable (a < b) :=
  inferInstanceAs (Decidable (PyFloat.lt a b = true))

instance (a b : PyFloat) : Decidable (a ≤ b) :=
  inferInstanceAs (Decidable (PyFloat.le a b = true))

instance (n : Nat) : OfNat PyFloat n := ⟨.num (Int.ofNat n)⟩

instance : ToString PyFloat :=
  ⟨fun x => match x with | .nan => "nan" | .num v => toString v⟩

/-- Away from NaN, "does not compare below zero" and "compares at least
zero" coincide; NaN satisfies neither. -/
theorem PyFloat.not_lt_zero_iff (v : Int) :
    ¬ PyFloat.num v < (0 : PyFloat) ↔ (0 : PyFloat) ≤ PyFloat.num v := by
  show ¬ PyFloat.lt (PyFloat.num v) (PyFloat.num 0) = true ↔
    PyFloat.le (PyFloat.num 0) (PyFloat.num v) = true
  simp only [PyFloat.lt, PyFloat.le, decide_eq_true_eq]
  omega

structure Product where
  id : Int
  name : String
  price : PyFloat
  quantity : Int
deriving Repr, DecidableEq

/-- The `products` table (its rows) together with the value the backing
sequence will assign to the next inserted row. -/
structure Store where
  rows : List Product
  nextId : Int
deriving Repr, DecidableEq

def Store.empty : Store := ⟨[], 1⟩

/-- Well-formedness of a store state, as PostgreSQL guarantees it for a
SERIAL primary-key column: ids are positive, below the sequence value, and
pairwise distinct. -/
def Store.wf (s : Store) : Prop :=
  1 ≤ s.nextId ∧ (∀ p ∈ s.rows, 1 ≤ p.id ∧ p.id < s.nextId) ∧
    (s.rows.map Product.id).Nodup

instance (s : Store) : Decidable s.wf := by
  unfold Store.wf; infer_instance

/-- Embeds Python's `str.strip()`: removes whitespace from both ends.
Implemented over the character list so it evaluates inside the kernel. -/
def pyStrip (s : String) : String :=
  ⟨((s.data.dropWhile Char.isWhitespace).reverse.dropWhile
      Char.isWhitespace).reverse⟩

/-- The message PostgreSQL produces when a value exceeds `String(100)`. -/
def valueTooLong : String := "value too long for type character varying(100)"

/-- Result of one operation: the returned value, the store afterwards, and
the session bookkeeping (sessions opened, sessions closed, rollbacks). -/
structure OpOut (α : Type) where
  res : α
  store : Store
  opened : Nat
  closed : Nat
  rollbacks : Nat
deriving Repr, DecidableEq

namespace Tp1

/-- Outcome of a `tp1.py` function: normal return, a `ValueError` raised by
validation, or the `Exception("Database error: ...")` re-raised from a
`SQLAlchemyError`. -/
inductive Res (α : Type) where
  | ok (a : α)
  | valueError (msg : String)
  | dbExn (msg : String)
deriving Repr, DecidableEq

/-- Embeds `tp1.validate_product`: name must be truthy and non-blank after strip,
price and quantity must be non-negative; first failing check raises. -/
def validate_product (name : String) (price : PyFloat) (quantity : Int) :
    Except String Unit :=
  if name = "" ∨ pyStrip name = "" then .error "❌ Name cannot be empty"
  else if price < 0 then .error "❌ Price must be >= 0"
  else if quantity < 0 then .error "❌ Quantity must be >= 0"
  else .ok ()

/-- Embeds `tp1.create_product`: validate, open a session, insert, commit, refresh,
return the row; on `SQLAlchemyError` rollback and raise; finally close. -/
def create_product (fault : Option String) (name : String)
    (price : PyFloat) (quantity : Int) (s : Store) : OpOut (Res Product) :=
  match validate_product name price quantity with
  | .error m => ⟨.valueError m, s, 0, 0, 0⟩
  | .ok _ =>
    match fault with
    | some m => ⟨.dbExn ("Database error: " ++ m), s, 1, 1, 1⟩
    | none =>
      if 100 < name.length then
        ⟨.dbExn ("Database error: " ++ valueTooLong), s, 1, 1, 1⟩
      else
        let p : Product := ⟨s.nextId, name, price, quantity⟩
        ⟨.ok p, ⟨s.rows ++ [p], s.nextId + 1⟩, 1, 1, 0⟩

/-- Embeds `tp1.get_product`: open a session, return the first row matching the id
(`None` when absent); on `SQLAlchemyError` raise (no rollback); finally
close. No id validation is performed. -/
def get_product (fault : Option String) (pid : Int) (s : Store) :
    OpOut (Res (Option Product)) :=
  match fault with
  | some m => ⟨.dbExn ("Database error: " ++ m), s, 1, 1, 0⟩
  | none => ⟨.ok (s.rows.find? (fun q => q.id == pid)), s, 1, 1, 0⟩

/-- Embeds `tp1.get_all_products`: open a session, return all rows; on
`SQLAlchemyError` raise (no rollback); finally close. -/
def get_all_products (fault : Option String) (s : Store) :
    OpOut (Res (List Product)) :=
  match fault with
  | some m => ⟨.dbExn ("Database error: " ++ m), s, 1, 1, 0⟩
  | none => ⟨.ok s.rows, s, 1, 1, 0⟩

/-- Embeds `tp1.update_product`: validate the new values, open a session, look the
row up (`None` when absent), overwrite name/price/quantity, commit, return
the row; on `SQLAlchemyError` rollback and raise; finally close. The commit
issues `UPDATE products SET ... WHERE id = pid`. -/
def update_product (fault : Option String) (pid : Int) (name : String)
    (price : PyFloat) (quantity : Int) (s : Store) : OpOut (Res (Option Product)) :=
  match validate_product name price quantity with
  | .error m => ⟨.valueError m, s, 0, 0, 0⟩
  | .ok _ =>
    match fault with
    | some m => ⟨.dbExn ("Database error: " ++ m), s, 1, 1, 1⟩
    | none =>
      match s.rows.find? (fun q => q.id == pid) with
      | none => ⟨.ok none, s, 1, 1, 0⟩
      | some q =>
        if 100 < name.length then
          ⟨.dbExn ("Database error: " ++ valueTooLong), s, 1, 1, 1⟩
        else
          let q2 : Product := ⟨q.id, name, price, quantity⟩
          ⟨.ok (some q2),
            ⟨s.rows.map (fun r => if r.id == pid then q2 else r), s.nextId⟩,
            1, 1, 0⟩

/-- Embeds `tp1.delete_product`: open a session, look the row up (return `False`
when absent), delete it, commit, return `True`; on `SQLAlchemyError`
rollback and raise; finally close. No id validation is performed. -/
def delete_product (fault : Option String) (pid : Int) (s : Store) :
    OpOut (Res Bool) :=
  match fault with
  | some m => ⟨.dbExn ("Database error: " ++ m), s, 1, 1, 1⟩
  | none =>
    match s.rows.find? (fun q => q.id == pid) with
    | none => ⟨.ok false, s, 1, 1, 0⟩
    | some _ =>
      ⟨.ok true, ⟨s.rows.filter (fun r => r.id != pid), s.nextId⟩, 1, 1, 0⟩

end Tp1

namespace Part2

/-- Embeds `part2.validate_product`: same checks as in `tp1.py`, plainer
messages. -/
def validate_product (name : String) (price : PyFloat) (quantity : Int) :
    Except String Unit :=
  if name = "" ∨ pyStrip name = "" then .error "Name cannot be empty"
  else if price < 0 then .error "Price must be >= 0"
  else if quantity < 0 then .error "Quantity must be >= 0"
  else .ok ()

/-- Embeds `part2.validate_id`: rejects any id `≤ 0` with a `ValueError`. -/
def validate_id (pid : Int) : Except String Unit :=
  if pid ≤ 0 then .error "Invalid Product ID (must be > 0)" else .ok ()

/-- Embeds `ProductService.CreateProduct`: validate, open a session, insert,
commit, refresh, close, return a success string; `ValueError` and
`SQLAlchemyError` are caught and rendered as `"Error: ..."`. On the caught
store-error path the session is neither rolled back nor closed. -/
def CreateProduct (fault : Option String) (name : String)
    (price : PyFloat) (quantity : Int) (s : Store) : OpOut String :=
  match validate_product name price quantity with
  | .error m => ⟨"Error: " ++ m, s, 0, 0, 0⟩
  | .ok _ =>
    match fault with
    | some m => ⟨"Error: " ++ m, s, 1, 0, 0⟩
    | none =>
      if 100 < name.length then ⟨"Error: " ++ valueTooLong, s, 1, 0, 0⟩
      else
        ⟨"Product created successfully (ID=" ++ (toString s.nextId ++ ")"),
          ⟨s.rows ++ [⟨s.nextId, name, price, quantity⟩], s.nextId + 1⟩,
          1, 1, 0⟩

/-- Embeds `ProductService.GetProduct`: validate the id, open a session, query,
close, then report the row or "Product not found"; caught exceptions are
rendered as `"Error: ..."` with the session left open. -/
def GetProduct (fault : Option String) (pid : Int) (s : Store) :
    OpOut String :=
  match validate_id pid with
  | .error m => ⟨"Error: " ++ m, s, 0, 0, 0⟩
  | .ok _ =>
    match fault with
    | some m => ⟨"Error: " ++ m, s, 1, 0, 0⟩
    | none =>
      match s.rows.find? (fun q => q.id == pid) with
      | none => ⟨"Product not found", s, 1, 1, 0⟩
      | some p =>
        ⟨"ID=" ++ (toString p.id ++ (", Name=" ++ (p.name ++ (", Price=" ++
            (toString p.price ++ (", Quantity=" ++ toString p.quantity)))))),
          s, 1, 1, 0⟩

/-- Embeds `ProductService.UpdateProduct`: validate id then new values, open a
session, look the row up (closing and reporting not-found when absent),
overwrite the fields, commit, close, return a success string; caught
exceptions are rendered as `"Error: ..."` with the session left open. -/
def UpdateProduct (fault : Option String) (pid : Int) (name : String)
    (price : PyFloat) (quantity : Int) (s : Store) : OpOut String :=
  match validate_id pid with
  | .error m => ⟨"Error: " ++ m, s, 0, 0, 0⟩
  | .ok _ =>
    match validate_product name price quantity with
    | .error m => ⟨"Error: " ++ m, s, 0, 0, 0⟩
    | .ok _ =>
      match fault with
      | some m => ⟨"Error: " ++ m, s, 1, 0, 0⟩
      | none =>
        match s.rows.find? (fun q => q.id == pid) with
        | none => ⟨"Product not found", s, 1, 1, 0⟩
        | some q =>
          if 100 < name.length then ⟨"Error: " ++ valueTooLong, s, 1, 0, 0⟩
          else
            ⟨"Product updated successfully (ID=" ++ (toString pid ++ ")"),
              ⟨s.rows.map (fun r =>
                  if r.id == pid then
                    (⟨q.id, name, price, quantity⟩ : Product)
                  else r), s.nextId⟩,
              1, 1, 0⟩

/-- Embeds `ProductService.DeleteProduct`: validate the id, open a session, look
the row up (closing and reporting not-found when absent), delete, commit,
close, return a success string; caught exceptions are rendered as
`"Error: ..."` with the session left open. -/
def DeleteProduct (fault : Option String) (pid : Int) (s : Store) :
    OpOut String :=
  match validate_id pid with
  | .error m => ⟨"Error: " ++ m, s, 0, 0, 0⟩
  | .ok _ =>
    match fault with
    | some m => ⟨"Error: " ++ m, s, 1, 0, 0⟩
    | none =>
      match s.rows.find? (fun q => q.id == pid) with
      | none => ⟨"Product not found", s, 1, 1, 0⟩
      | some _ =>
        ⟨"Product deleted successfully (ID=" ++ (toString pid ++ ")"),
          ⟨s.rows.filter (fun r => r.id != pid), s.nextId⟩, 1, 1, 0⟩

end Part2

/-! ## Scripts of mutating `tp1.py` operations -/

/-- One mutating call against the store through `tp1.py`. -/
inductive Op where
  | create (fault : Option String) (name : String) (price : PyFloat) (quantity : Int)
  | update (fault : Option String) (pid : Int) (name : String)
      (price : PyFloat) (quantity : Int)
  | delete (fault : Option String) (pid : Int)
deriving Repr, DecidableEq

/-- The store an operation leaves behind. -/
def applyOp (s : Store) : Op → Store
  | .create f n p q => (Tp1.create_product f n p q s).store
  | .update f pid n p q => (Tp1.update_product f pid n p q s).store
  | .delete f pid => (Tp1.delete_product f pid s).store

/-- Run a script of operations left to right. -/
def runOps (s : Store) : List Op → Store
  | [] => s
  | o :: rest => runOps (applyOp s o) rest

/-- A script is successful when every Create returns a record and every
Delete returns `True`; Updates are unconstrained. -/
def opSucceeds (s : Store) : Op → Bool
  | .create f n p q =>
    match (Tp1.create_product f n p q s).res with
    | .ok _ => true
    | _ => false
  | .update _ _ _ _ _ => true
  | .delete f pid =>
    match (Tp1.delete_product f pid s).res with
    | .ok true => true
    | _ => false

def scriptOk (s : Store) : List Op → Bool
  | [] => true
  | o :: rest => opSucceeds s o && scriptOk (applyOp s o) rest

def countCreates : List Op → Nat
  | [] => 0
  | .create _ _ _ _ :: rest => countCreates rest + 1
  | _ :: rest => countCreates rest

def countDeletes : List Op → Nat
  | [] => 0
  | .delete _ _ :: rest => countDeletes rest + 1
  | _ :: rest => countDeletes rest

/-- A string begins with `"Error: "`. This is the only marker the SOAP
service gives a caller to tell a failure apart from a success. -/
def beginsWithError (r : String) : Prop :=
  ∃ t : List Char, r.data = "Error: ".data ++ t

/-! ## Helper lemmas -/

theorem strDataAppend (a b : String) : (a ++ b).data = a.data ++ b.data := by
  cases a; cases b; rfl

theorem beginsWithError_concat (m : String) : beginsWithError ("Error: " ++ m) :=
  ⟨m.data, strDataAppend _ _⟩

theorem headE_of_beginsWithError {r : String} (h : beginsWithError r) :
    r.data.head? = some 'E' := by
  obtain ⟨t, ht⟩ := h
  rw [ht]
  rfl

theorem not_beginsWithError_of_head {r : String} {c : Char} {t : List Char}
    (h : r.data = c :: t) (hc : c ≠ 'E') : ¬ beginsWithError r := by
  intro hb
  have := headE_of_beginsWithError hb
  rw [h] at this
  simp only [List.head?_cons, Option.some.injEq] at this
  exact hc this

theorem not_beginsWithError_append {a : String} (b : String) {c : Char}
    {t : List Char} (ha : a.data = c :: t) (hc : c ≠ 'E') :
    ¬ beginsWithError (a ++ b) :=
  not_beginsWithError_of_head
    (by rw [strDataAppend, ha]; rfl) hc

theorem Tp1.validate_product_ok (n : String) (p : PyFloat) (q : Int) :
    Tp1.validate_product n p q = .ok () ↔
      (pyStrip n ≠ "" ∧ ¬ p < 0 ∧ 0 ≤ q) := by
  unfold Tp1.validate_product
  split_ifs with h1 h2 h3
  · have htrim : pyStrip n = "" := by
      rcases h1 with h | h
      · rw [h]; decide
      · exact h
    apply iff_of_false (by simp)
    rintro ⟨hne, -, -⟩
    exact hne htrim
  · exact iff_of_false (by simp) (by rintro ⟨-, hp, -⟩; exact hp h2)
  · exact iff_of_false (by simp) (by rintro ⟨-, -, hq⟩; omega)
  · exact iff_of_true rfl ⟨fun h => h1 (Or.inr h), h2, by omega⟩

theorem Part2.validate_product_passes (n : String) (p : PyFloat) (q : Int) :
    Part2.validate_product n p q = .ok () ↔
      (pyStrip n ≠ "" ∧ ¬ p < 0 ∧ 0 ≤ q) := by
  unfold Part2.validate_product
  split_ifs with h1 h2 h3
  · have htrim : pyStrip n = "" := by
      rcases h1 with h | h
      · rw [h]; decide
      · exact h
    apply iff_of_false (by simp)
    rintro ⟨hne, -, -⟩
    exact hne htrim
  · exact iff_of_false (by simp) (by rintro ⟨-, hp, -⟩; exact hp h2)
  · exact iff_of_false (by simp) (by rintro ⟨-, -, hq⟩; omega)
  · exact iff_of_true rfl ⟨fun h => h1 (Or.inr h), h2, by omega⟩

theorem Part2.validate_id_of_le {pid : Int} (h : pid ≤ 0) :
    Part2.validate_id pid = .error "Invalid Product ID (must be > 0)" := by
  unfold Part2.validate_id
  rw [if_pos h]

theorem Part2.validate_id_of_pos {pid : Int} (h : 0 < pid) :
    Part2.validate_id pid = .ok () := by
  unfold Part2.validate_id
  rw [if_neg (by omega)]

theorem Tp1.create_product_of_ok {f : Option String} {n : String}
    {p : PyFloat} {q : Int} (s : Store) (hv : Tp1.validate_product n p q = .ok ())
    (hf : f = none) (hn : n.length ≤ 100) :
    Tp1.create_product f n p q s =
      ⟨.ok ⟨s.nextId, n, p, q⟩,
       ⟨s.rows ++ [⟨s.nextId, n, p, q⟩], s.nextId + 1⟩, 1, 1, 0⟩ := by
  subst hf
  unfold Tp1.create_product
  rw [hv]
  simp only
  rw [if_neg (by omega)]

theorem Tp1.create_product_fault {f : Option String} {n : String}
    {p : PyFloat} {q : Int} {m : String} (s : Store)
    (hv : Tp1.validate_product n p q = .ok ()) (hf : f = some m) :
    Tp1.create_product f n p q s =
      ⟨.dbExn ("Database error: " ++ m), s, 1, 1, 1⟩ := by
  subst hf
  unfold Tp1.create_product
  rw [hv]

theorem Tp1.update_product_not_found {f : Option String} {pid : Int}
    {n : String} {p : PyFloat} {q : Int} {s : Store}
    (hv : Tp1.validate_product n p q = .ok ()) (hf : f = none)
    (hfind : s.rows.find? (fun x => x.id == pid) = none) :
    Tp1.update_product f pid n p q s = ⟨.ok none, s, 1, 1, 0⟩ := by
  subst hf
  unfold Tp1.update_product
  rw [hv, hfind]

theorem Tp1.update_product_found {f : Option String} {pid : Int}
    {n : String} {p : PyFloat} {q : Int} {s : Store} {r : Product}
    (hv : Tp1.validate_product n p q = .ok ()) (hf : f = none)
    (hfind : s.rows.find? (fun x => x.id == pid) = some r)
    (hn : n.length ≤ 100) :
    Tp1.update_product f pid n p q s =
      ⟨.ok (some ⟨r.id, n, p, q⟩),
       ⟨s.rows.map (fun x =>
          if x.id == pid then (⟨r.id, n, p, q⟩ : Product) else x),
        s.nextId⟩, 1, 1, 0⟩ := by
  subst hf
  unfold Tp1.update_product
  rw [hv, hfind]
  simp only
  rw [if_neg (by omega)]

theorem Tp1.update_product_fault {f : Option String} {pid : Int}
    {n : String} {p : PyFloat} {q : Int} {m : String} (s : Store)
    (hv : Tp1.validate_product n p q = .ok ()) (hf : f = some m) :
    Tp1.update_product f pid n p q s =
      ⟨.dbExn ("Database error: " ++ m), s, 1, 1, 1⟩ := by
  subst hf
  unfold Tp1.update_product
  rw [hv]

theorem Tp1.delete_product_not_found {pid : Int} {s : Store}
    (hfind : s.rows.find? (fun x => x.id == pid) = none) :
    Tp1.delete_product none pid s = ⟨.ok false, s, 1, 1, 0⟩ := by
  unfold Tp1.delete_product
  rw [hfind]

theorem Tp1.delete_product_found {pid : Int} {s : Store} {r : Product}
    (hfind : s.rows.find? (fun x => x.id == pid) = some r) :
    Tp1.delete_product none pid s =
      ⟨.ok true, ⟨s.rows.filter (fun x => x.id != pid), s.nextId⟩,
       1, 1, 0⟩ := by
  unfold Tp1.delete_product
  rw [hfind]

theorem Tp1.delete_product_fault (pid : Int) (m : String) (s : Store) :
    Tp1.delete_product (some m) pid s =
      ⟨.dbExn ("Database error: " ++ m), s, 1, 1, 1⟩ := rfl

theorem Part2.CreateProduct_of_ok {f : Option String} {n : String}
    {p : PyFloat} {q : Int} (s : Store) (hv : Part2.validate_product n p q = .ok ())
    (hf : f = none) (hn : n.length ≤ 100) :
    Part2.CreateProduct f n p q s =
      ⟨"Product created successfully (ID=" ++ (toString s.nextId ++ ")"),
       ⟨s.rows ++ [⟨s.nextId, n, p, q⟩], s.nextId + 1⟩, 1, 1, 0⟩ := by
  subst hf
  unfold Part2.CreateProduct
  rw [hv]
  simp only
  rw [if_neg (by omega)]

theorem Part2.CreateProduct_fault {f : Option String} {n : String}
    {p : PyFloat} {q : Int} {m : String} (s : Store)
    (hv : Part2.validate_product n p q = .ok ()) (hf : f = some m) :
    Part2.CreateProduct f n p q s = ⟨"Error: " ++ m, s, 1, 0, 0⟩ := by
  subst hf
  unfold Part2.CreateProduct
  rw [hv]

theorem Part2.GetProduct_invalid {pid : Int} (hpid : pid ≤ 0)
    (f : Option String) (s : Store) :
    Part2.GetProduct f pid s =
      ⟨"Error: Invalid Product ID (must be > 0)", s, 0, 0, 0⟩ := by
  unfold Part2.GetProduct
  rw [Part2.validate_id_of_le hpid]
  simp only [OpOut.mk.injEq, and_true]
  decide

theorem Part2.UpdateProduct_invalid {pid : Int} (hpid : pid ≤ 0)
    (f : Option String) (n : String) (p : PyFloat) (q : Int) (s : Store) :
    Part2.UpdateProduct f pid n p q s =
      ⟨"Error: Invalid Product ID (must be > 0)", s, 0, 0, 0⟩ := by
  unfold Part2.UpdateProduct
  rw [Part2.validate_id_of_le hpid]
  simp only [OpOut.mk.injEq, and_true]
  decide

theorem Part2.DeleteProduct_invalid {pid : Int} (hpid : pid ≤ 0)
    (f : Option String) (s : Store) :
    Part2.DeleteProduct f pid s =
      ⟨"Error: Invalid Product ID (must be > 0)", s, 0, 0, 0⟩ := by
  unfold Part2.DeleteProduct
  rw [Part2.validate_id_of_le hpid]
  simp only [OpOut.mk.injEq, and_true]
  decide

theorem Part2.UpdateProduct_not_found {f : Option String} {pid : Int}
    {n : String} {p : PyFloat} {q : Int} {s : Store} (hpid : 0 < pid)
    (hv : Part2.validate_product n p q = .ok ()) (hf : f = none)
    (hfind : s.rows.find? (fun x => x.id == pid) = none) :
    Part2.UpdateProduct f pid n p q s =
      ⟨"Product not found", s, 1, 1, 0⟩ := by
  subst hf
  unfold Part2.UpdateProduct
  rw [Part2.validate_id_of_pos hpid, hv, hfind]

theorem Part2.UpdateProduct_found {f : Option String} {pid : Int}
    {n : String} {p : PyFloat} {q : Int} {s : Store} {r : Product} (hpid : 0 < pid)
    (hv : Part2.validate_product n p q = .ok ()) (hf : f = none)
    (hfind : s.rows.find? (fun x => x.id == pid) = some r)
    (hn : n.length ≤ 100) :
    Part2.UpdateProduct f pid n p q s =
      ⟨"Product updated successfully (ID=" ++ (toString pid ++ ")"),
       ⟨s.rows.map (fun x =>
          if x.id == pid then (⟨r.id, n, p, q⟩ : Product) else x),
        s.nextId⟩, 1, 1, 0⟩ := by
  subst hf
  unfold Part2.UpdateProduct
  rw [Part2.validate_id_of_pos hpid, hv, hfind]
  simp only
  rw [if_neg (by omega)]

theorem Part2.UpdateProduct_fault {f : Option String} {pid : Int}
    {n : String} {p : PyFloat} {q : Int} {m : String} (s : Store) (hpid : 0 < pid)
    (hv : Part2.validate_product n p q = .ok ()) (hf : f = some m) :
    Part2.UpdateProduct f pid n p q s = ⟨"Error: " ++ m, s, 1, 0, 0⟩ := by
  subst hf
  unfold Part2.UpdateProduct
  rw [Part2.validate_id_of_pos hpid, hv]

theorem Part2.DeleteProduct_not_found {pid : Int} {s : Store}
    (hpid : 0 < pid)
    (hfind : s.rows.find? (fun x => x.id == pid) = none) :
    Part2.DeleteProduct none pid s = ⟨"Product not found", s, 1, 1, 0⟩ := by
  unfold Part2.DeleteProduct
  rw [Part2.validate_id_of_pos hpid, hfind]

theorem Part2.DeleteProduct_fault {pid : Int} {m : String} (s : Store)
    (hpid : 0 < pid) :
    Part2.DeleteProduct (some m) pid s = ⟨"Error: " ++ m, s, 1, 0, 0⟩ := by
  unfold Part2.DeleteProduct
  rw [Part2.validate_id_of_pos hpid]

theorem Tp1.create_product_store (f : Option String) (n : String)
    (p : PyFloat) (q : Int) (s : Store) :
    (Tp1.create_product f n p q s).store = s ∨
      (Tp1.validate_product n p q = .ok () ∧ f = none ∧ n.length ≤ 100 ∧
        (Tp1.create_product f n p q s).store =
          ⟨s.rows ++ [⟨s.nextId, n, p, q⟩], s.nextId + 1⟩) := by
  unfold Tp1.create_product
  split
  · exact Or.inl rfl
  next u heq =>
    split
    · exact Or.inl rfl
    · split
      · exact Or.inl rfl
      next h =>
        right
        cases u
        exact ⟨heq, rfl, by omega, rfl⟩

theorem Tp1.update_product_store (f : Option String) (pid : Int)
    (n : String) (p : PyFloat) (q : Int) (s : Store) :
    (Tp1.update_product f pid n p q s).store = s ∨
      (∃ r, s.rows.find? (fun x => x.id == pid) = some r ∧
        Tp1.validate_product n p q = .ok () ∧ f = none ∧ n.length ≤ 100 ∧
        (Tp1.update_product f pid n p q s).store =
          ⟨s.rows.map (fun x =>
             if x.id == pid then (⟨r.id, n, p, q⟩ : Product) else x),
           s.nextId⟩) := by
  unfold Tp1.update_product
  split
  · exact Or.inl rfl
  next u heq =>
    split
    · exact Or.inl rfl
    · split
      · exact Or.inl rfl
      next r hfind =>
        split
        · exact Or.inl rfl
        next h =>
          right
          cases u
          exact ⟨r, hfind, heq, rfl, by omega, rfl⟩

theorem Tp1.delete_product_store (f : Option String) (pid : Int)
    (s : Store) :
    (Tp1.delete_product f pid s).store = s ∨
      (∃ r, s.rows.find? (fun x => x.id == pid) = some r ∧ f = none ∧
        (Tp1.delete_product f pid s).store =
          ⟨s.rows.filter (fun x => x.id != pid), s.nextId⟩) := by
  unfold Tp1.delete_product
  split
  · exact Or.inl rfl
  · split
    · exact Or.inl rfl
    next r hfind => exact Or.inr ⟨r, hfind, rfl, rfl⟩

/-- Every row present after one mutating operation is either an old row or
a row whose field values passed `validate_product` and fit the
`String(100)` column. -/
theorem mem_applyOp_rows {s : Store} {o : Op} {r : Product}
    (hr : r ∈ (applyOp s o).rows) :
    r ∈ s.rows ∨
      (Tp1.validate_product r.name r.price r.quantity = .ok () ∧
        r.name.length ≤ 100) := by
  cases o with
  | create f n p q =>
    rcases Tp1.create_product_store f n p q s with h | ⟨hv, -, hn, h⟩
    · rw [applyOp, h] at hr
      exact Or.inl hr
    · rw [applyOp, h] at hr
      rcases List.mem_append.mp hr with h1 | h1
      · exact Or.inl h1
      · simp only [List.mem_singleton] at h1
        subst h1
        exact Or.inr ⟨hv, hn⟩
  | update f pid n p q =>
    rcases Tp1.update_product_store f pid n p q s with h | ⟨r0, -, hv, -, hn, h⟩
    · rw [applyOp, h] at hr
      exact Or.inl hr
    · rw [applyOp, h] at hr
      simp only [List.mem_map] at hr
      obtain ⟨x, hx, hxr⟩ := hr
      by_cases hid : (x.id == pid) = true
      · rw [if_pos hid] at hxr
        subst hxr
        exact Or.inr ⟨hv, hn⟩
      · rw [if_neg hid] at hxr
        subst hxr
        exact Or.inl hx
  | delete f pid =>
    rcases Tp1.delete_product_store f pid s with h | ⟨r0, -, -, h⟩
    · rw [applyOp, h] at hr
      exact Or.inl hr
    · rw [applyOp, h] at hr
      exact Or.inl (List.mem_of_mem_filter hr)

/-- Every mutating operation keeps the store well-formed. -/
theorem wf_applyOp (s : Store) (o : Op) (hs : s.wf) : (applyOp s o).wf := by
  obtain ⟨h1, h2, h3⟩ := hs
  cases o with
  | create f n p q =>
    rcases Tp1.create_product_store f n p q s with h | ⟨-, -, -, h⟩
    · rw [applyOp, h]
      exact ⟨h1, h2, h3⟩
    · rw [applyOp, h]
      unfold Store.wf
      dsimp only
      refine ⟨by omega, ?_, ?_⟩
      · intro x hx
        rcases List.mem_append.mp hx with hx | hx
        · exact ⟨(h2 x hx).1, by have := (h2 x hx).2; omega⟩
        · simp only [List.mem_singleton] at hx
          subst hx
          refine ⟨?_, ?_⟩ <;> (dsimp only; omega)
      · rw [List.map_append, List.nodup_append]
        refine ⟨h3, List.nodup_singleton _, ?_⟩
        intro a ha hb
        simp only [List.map_cons, List.map_nil, List.mem_singleton] at hb
        subst hb
        obtain ⟨x, hx, hxa⟩ := List.mem_map.mp ha
        have := (h2 x hx).2
        omega
  | update f pid n p q =>
    rcases Tp1.update_product_store f pid n p q s with h | ⟨r0, hfind, -, -, -, h⟩
    · rw [applyOp, h]
      exact ⟨h1, h2, h3⟩
    · have hr0 : r0.id = pid := by
        have := List.find?_some hfind
        simpa using this
      have hid : ∀ x ∈ s.rows,
          (if x.id == pid then (⟨r0.id, n, p, q⟩ : Product) else x).id =
            x.id := by
        intro x hx
        by_cases hxe : (x.id == pid) = true
        · rw [if_pos hxe]
          have : x.id = pid := by simpa using hxe
          simp [hr0, this]
        · rw [if_neg hxe]
      rw [applyOp, h]
      refine ⟨h1, ?_, ?_⟩
      · intro x hx
        obtain ⟨y, hy, hyx⟩ := List.mem_map.mp hx
        have : x.id = y.id := by rw [← hyx]; exact hid y hy
        rw [this]
        exact h2 y hy
      · have : (s.rows.map (fun x =>
            if x.id == pid then (⟨r0.id, n, p, q⟩ : Product) else x)).map
              Product.id = s.rows.map Product.id := by
          rw [List.map_map]
          exact List.map_congr_left (fun x hx => hid x hx)
        rw [this]
        exact h3
  | delete f pid =>
    rcases Tp1.delete_product_store f pid s with h | ⟨r0, -, -, h⟩
    · rw [applyOp, h]
      exact ⟨h1, h2, h3⟩
    · rw [applyOp, h]
      refine ⟨h1, ?_, ?_⟩
      · intro x hx
        exact h2 x (List.mem_of_mem_filter hx)
      · exact List.Nodup.sublist
          (List.Sublist.map Product.id (List.filter_sublist s.rows)) h3

/-- In a list of rows with pairwise-distinct ids, deleting the found id
removes exactly one row. -/
theorem length_filter_found {pid : Int} :
    ∀ (l : List Product), (l.map Product.id).Nodup →
      ∀ r, l.find? (fun x => x.id == pid) = some r →
        (l.filter (fun x => x.id != pid)).length + 1 = l.length := by
  intro l
  induction l with
  | nil =>
    intro _ r hr
    simp at hr
  | cons a t ih =>
    intro hnd r hr
    rw [List.map_cons, List.nodup_cons] at hnd
    obtain ⟨ha, ht⟩ := hnd
    rw [List.find?_cons] at hr
    rw [List.filter_cons]
    cases hbe : (a.id == pid) with
    | true =>
      have hapid : a.id = pid := by simpa using hbe
      have hne : (a.id != pid) = false := by simp [hapid]
      simp only [hne, Bool.false_eq_true, if_false]
      have : t.filter (fun x => x.id != pid) = t := by
        rw [List.filter_eq_self]
        intro x hx
        simp only [bne_iff_ne, ne_eq]
        intro hxe
        exact ha (List.mem_map.mpr ⟨x, hx, by rw [hxe, hapid]⟩)
      rw [this]
      simp
    | false =>
      have hne : (a.id != pid) = true := by simp_all [bne_iff_ne]
      simp only [hne, if_true]
      simp only [hbe] at hr
      have := ih ht r hr
      simp only [List.length_cons]
      omega

/-- Any per-row predicate implied by validation plus the column bound is
preserved by every mutating operation, hence holds in every store reachable
from the empty one. -/
theorem runOps_rows_pres (P : Product → Prop)
    (hnew : ∀ r : Product,
      Tp1.validate_product r.name r.price r.quantity = .ok () →
      r.name.length ≤ 100 → P r) :
    ∀ (ops : List Op) (s : Store), (∀ r ∈ s.rows, P r) →
      ∀ r ∈ (runOps s ops).rows, P r := by
  intro ops
  induction ops with
  | nil => intro s hs r hr; exact hs r hr
  | cons o rest ih =>
    intro s hs r hr
    refine ih (applyOp s o) ?_ r hr
    intro x hx
    rcases mem_applyOp_rows hx with h | ⟨hv, hn⟩
    · exact hs x h
    · exact hnew x hv hn

/-- A Create that returned normally must have passed validation, seen no
store fault, and fit the `String(100)` column. -/
theorem Tp1.create_product_res_ok {f : Option String} {n : String}
    {p : PyFloat} {q : Int} {s : Store} {a : Product}
    (h : (Tp1.create_product f n p q s).res = .ok a) :
    Tp1.validate_product n p q = .ok () ∧ f = none ∧ n.length ≤ 100 := by
  unfold Tp1.create_product at h
  split at h
  · simp at h
  next u heq =>
    split at h
    · simp at h
    · split at h
      · simp at h
      next hlen =>
        cases u
        exact ⟨heq, rfl, by omega⟩

/-- A Delete that returned `True` saw no fault and found a matching row. -/
theorem Tp1.delete_product_res_true {f : Option String} {pid : Int}
    {s : Store} (h : (Tp1.delete_product f pid s).res = .ok true) :
    f = none ∧ ∃ r, s.rows.find? (fun x => x.id == pid) = some r := by
  unfold Tp1.delete_product at h
  split at h
  · simp at h
  · split at h
    · simp at h
    next r hfind => exact ⟨rfl, r, hfind⟩

theorem Part2.validate_id_error_le {pid : Int} {m : String}
    (h : Part2.validate_id pid = .error m) : pid ≤ 0 := by
  unfold Part2.validate_id at h
  split_ifs at h with hh
  exact hh

theorem Part2.validate_id_ok_pos {pid : Int} {u : Unit}
    (h : Part2.validate_id pid = .ok u) : 0 < pid := by
  unfold Part2.validate_id at h
  split_ifs at h with hh
  omega

theorem notErrorCreated (b : String) :
    ¬ beginsWithError ("Product created successfully (ID=" ++ b) :=
  not_beginsWithError_append b
    (show "Product created successfully (ID=".data =
        'P' :: "roduct created successfully (ID=".data by decide)
    (by decide)

theorem notErrorUpdated (b : String) :
    ¬ beginsWithError ("Product updated successfully (ID=" ++ b) :=
  not_beginsWithError_append b
    (show "Product updated successfully (ID=".data =
        'P' :: "roduct updated successfully (ID=".data by decide)
    (by decide)

theorem notErrorDeleted (b : String) :
    ¬ beginsWithError ("Product deleted successfully (ID=" ++ b) :=
  not_beginsWithError_append b
    (show "Product deleted successfully (ID=".data =
        'P' :: "roduct deleted successfully (ID=".data by decide)
    (by decide)

theorem notErrorIdMsg (b : String) : ¬ beginsWithError ("ID=" ++ b) :=
  not_beginsWithError_append b
    (show "ID=".data = 'I' :: "D=".data by decide) (by decide)

theorem notErrorNotFound : ¬ beginsWithError "Product not found" :=
  not_beginsWithError_of_head
    (show "Product not found".data = 'P' :: "roduct not found".data
      by decide)
    (by decide)

/-- The per-product invariant the program actually maintains: name
non-empty after stripping whitespace, price never comparing below zero
(IEEE NaN satisfies neither `price < 0` nor `0 ≤ price`, and the program
accepts it), non-negative quantity. -/
def goodProduct (r : Product) : Prop :=
  pyStrip r.name ≠ "" ∧ ¬ r.price < 0 ∧ 0 ≤ r.quantity

/-! ## Claims -/

/-- C1, counterexample: in `tp1.py` the Read (`get_product`), Update
(`update_product`) and Delete (`delete_product`) operations perform no id
validation at all. At id `0 ≤ 0` each opens a session (one store access)
and returns a normal not-found result instead of raising the InvalidInput
`ValueError`, so the claim as stated is false. -/
theorem C1_counterexample :
    (Tp1.get_product none 0 Store.empty).res = .ok none ∧
    (Tp1.get_product none 0 Store.empty).opened = 1 ∧
    (Tp1.update_product none 0 "Widget" 10 5 Store.empty).res = .ok none ∧
    (Tp1.update_product none 0 "Widget" 10 5 Store.empty).opened = 1 ∧
    (Tp1.delete_product none 0 Store.empty).res = .ok false ∧
    (Tp1.delete_product none 0 Store.empty).opened = 1 := by
  decide

/-- C1, amended: for every id `≤ 0`, the SOAP service's GetProduct,
UpdateProduct and DeleteProduct fail with the `validate_id` ValueError
(rendered "Error: Invalid Product ID (must be > 0)") before any store
access: no session is created, nothing rolls back, and the store is
untouched. The `tp1.py` operations perform no id validation (see the
counterexample). -/
theorem C1_soap_invalid_id (pid : Int) (hpid : pid ≤ 0) :
    ∀ (f : Option String) (n : String) (p : PyFloat) (q : Int) (s : Store),
      Part2.GetProduct f pid s =
        ⟨"Error: Invalid Product ID (must be > 0)", s, 0, 0, 0⟩ ∧
      Part2.UpdateProduct f pid n p q s =
        ⟨"Error: Invalid Product ID (must be > 0)", s, 0, 0, 0⟩ ∧
      Part2.DeleteProduct f pid s =
        ⟨"Error: Invalid Product ID (must be > 0)", s, 0, 0, 0⟩ :=
  fun f n p q s =>
    ⟨Part2.GetProduct_invalid hpid f s,
     Part2.UpdateProduct_invalid hpid f n p q s,
     Part2.DeleteProduct_invalid hpid f s⟩

/-- C1, witness at id 0. -/
theorem C1_soap_invalid_id_witness :
    Part2.GetProduct none 0 Store.empty =
      ⟨"Error: Invalid Product ID (must be > 0)", Store.empty, 0, 0, 0⟩ ∧
    Part2.UpdateProduct none 0 "Widget" 10 5 Store.empty =
      ⟨"Error: Invalid Product ID (must be > 0)", Store.empty, 0, 0, 0⟩ ∧
    Part2.DeleteProduct none 0 Store.empty =
      ⟨"Error: Invalid Product ID (must be > 0)", Store.empty, 0, 0, 0⟩ :=
  C1_soap_invalid_id 0 (by decide) none "Widget" 10 5 Store.empty

/-- C2, counterexample: when the store raises during
`ProductService.CreateProduct`, the `except` branch returns the error
string without ever calling `session.close()`: the session survives the
operation's return. -/
theorem C2_counterexample :
    (Part2.CreateProduct (some "connection lost") "Widget" 10 5
        Store.empty).opened = 1 ∧
    (Part2.CreateProduct (some "connection lost") "Widget" 10 5
        Store.empty).closed = 0 := by
  decide

/-- C2, amended: every `tp1.py` operation closes exactly the sessions it
opened on every exit path (success, not-found, validation error and store
error alike, thanks to `try/finally`); the SOAP operations do so only on
paths without a store error — on store-error paths the session leaks (see
the counterexample). -/
theorem C2_session_release :
    (∀ f n p q s, (Tp1.create_product f n p q s).closed =
      (Tp1.create_product f n p q s).opened) ∧
    (∀ f pid s, (Tp1.get_product f pid s).closed =
      (Tp1.get_product f pid s).opened) ∧
    (∀ f s, (Tp1.get_all_products f s).closed =
      (Tp1.get_all_products f s).opened) ∧
    (∀ f pid n p q s, (Tp1.update_product f pid n p q s).closed =
      (Tp1.update_product f pid n p q s).opened) ∧
    (∀ f pid s, (Tp1.delete_product f pid s).closed =
      (Tp1.delete_product f pid s).opened) ∧
    (∀ n p q s, n.length ≤ 100 → (Part2.CreateProduct none n p q s).closed =
      (Part2.CreateProduct none n p q s).opened) ∧
    (∀ pid s, (Part2.GetProduct none pid s).closed =
      (Part2.GetProduct none pid s).opened) ∧
    (∀ pid n p q s, n.length ≤ 100 →
      (Part2.UpdateProduct none pid n p q s).closed =
        (Part2.UpdateProduct none pid n p q s).opened) ∧
    (∀ pid s, (Part2.DeleteProduct none pid s).closed =
      (Part2.DeleteProduct none pid s).opened) := by
  refine ⟨?_, ?_, ?_, ?_, ?_, ?_, ?_, ?_, ?_⟩
  · intro f n p q s
    unfold Tp1.create_product
    split
    · rfl
    · split
      · rfl
      · split <;> rfl
  · intro f pid s
    unfold Tp1.get_product
    split <;> rfl
  · intro f s
    unfold Tp1.get_all_products
    split <;> rfl
  · intro f pid n p q s
    unfold Tp1.update_product
    split
    · rfl
    · split
      · rfl
      · split
        · rfl
        · split <;> rfl
  · intro f pid s
    unfold Tp1.delete_product
    split
    · rfl
    · split <;> rfl
  · intro n p q s hn
    unfold Part2.CreateProduct
    split
    · rfl
    · split
      next heq => simp at heq
      · rw [if_neg (by omega)]
  · intro pid s
    unfold Part2.GetProduct
    split
    · rfl
    · split
      next heq => simp at heq
      · split <;> rfl
  · intro pid n p q s hn
    unfold Part2.UpdateProduct
    split
    · rfl
    · split
      · rfl
      · split
        next heq => simp at heq
        · split
          · rfl
          · rw [if_neg (by omega)]
  · intro pid s
    unfold Part2.DeleteProduct
    split
    · rfl
    · split
      next heq => simp at heq
      · split <;> rfl

/-- C2, witness: a `tp1.py` call and a SOAP call at concrete inputs. -/
theorem C2_session_release_witness :
    (Tp1.create_product none "Widget" 10 5 Store.empty).closed =
      (Tp1.create_product none "Widget" 10 5 Store.empty).opened ∧
    (Part2.UpdateProduct none 1 "Widget" 10 5 Store.empty).closed =
      (Part2.UpdateProduct none 1 "Widget" 10 5 Store.empty).opened :=
  ⟨C2_session_release.1 none "Widget" 10 5 Store.empty,
   C2_session_release.2.2.2.2.2.2.2.1 1 "Widget" 10 5 Store.empty
     (by decide)⟩

/-- C3, counterexample: when the store raises during
`ProductService.CreateProduct`, the `except` branch issues no
`session.rollback()` at all (it only returns the error string), so "the
operation rolls back its transaction" is false for the SOAP service. -/
theorem C3_counterexample :
    (Part2.CreateProduct (some "disk full") "Widget" 10 5
        Store.empty).rollbacks = 0 ∧
    (Part2.CreateProduct (some "disk full") "Widget" 10 5
        Store.empty).res = "Error: disk full" ∧
    (Part2.CreateProduct (some "disk full") "Widget" 10 5
        Store.empty).store = Store.empty := by
  decide

/-- C3, amended: when the store raises with message `m` during a mutating
call that reached it, `tp1.py`'s create/update/delete roll back exactly
once, leave the record set exactly as before the call, and raise
`Exception("Database error: m")` carrying the cause; the SOAP operations
also leave the record set unchanged and return `"Error: m"` carrying the
cause, but issue no rollback. -/
theorem C3_store_error (m : String) :
    (∀ n p q (s : Store), Tp1.validate_product n p q = .ok () →
      Tp1.create_product (some m) n p q s =
        ⟨.dbExn ("Database error: " ++ m), s, 1, 1, 1⟩) ∧
    (∀ pid n p q (s : Store), Tp1.validate_product n p q = .ok () →
      Tp1.update_product (some m) pid n p q s =
        ⟨.dbExn ("Database error: " ++ m), s, 1, 1, 1⟩) ∧
    (∀ pid (s : Store), Tp1.delete_product (some m) pid s =
      ⟨.dbExn ("Database error: " ++ m), s, 1, 1, 1⟩) ∧
    (∀ n p q (s : Store), Part2.validate_product n p q = .ok () →
      Part2.CreateProduct (some m) n p q s =
        ⟨"Error: " ++ m, s, 1, 0, 0⟩) ∧
    (∀ pid n p q (s : Store), 0 < pid →
      Part2.validate_product n p q = .ok () →
      Part2.UpdateProduct (some m) pid n p q s =
        ⟨"Error: " ++ m, s, 1, 0, 0⟩) ∧
    (∀ pid (s : Store), 0 < pid →
      Part2.DeleteProduct (some m) pid s =
        ⟨"Error: " ++ m, s, 1, 0, 0⟩) :=
  ⟨fun n p q s hv => Tp1.create_product_fault s hv rfl,
   fun pid n p q s hv => Tp1.update_product_fault s hv rfl,
   fun pid s => Tp1.delete_product_fault pid m s,
   fun n p q s hv => Part2.CreateProduct_fault s hv rfl,
   fun pid n p q s hp hv => Part2.UpdateProduct_fault s hp hv rfl,
   fun pid s hp => Part2.DeleteProduct_fault s hp⟩

/-- C3, witness at a concrete store fault. -/
theorem C3_store_error_witness :
    Tp1.create_product (some "disk full") "Widget" 10 5 Store.empty =
      ⟨.dbExn ("Database error: " ++ "disk full"), Store.empty, 1, 1, 1⟩ ∧
    Tp1.delete_product (some "disk full") 1 Store.empty =
      ⟨.dbExn ("Database error: " ++ "disk full"), Store.empty, 1, 1, 1⟩ :=
  ⟨(C3_store_error "disk full").1 "Widget" 10 5 Store.empty (by decide),
   (C3_store_error "disk full").2.2.1 1 Store.empty⟩

/-- C4, confirmed: starting from the empty store, no sequence of mutating
operations can persist a row whose name is longer than the 100 characters
the `String(100)` column admits — an over-long write is rejected by the
store and rolled back, so it never lands in the record set. -/
theorem C4_name_length_invariant (ops : List Op) :
    ∀ r ∈ (runOps Store.empty ops).rows, r.name.length ≤ 100 := by
  refine runOps_rows_pres (fun r => r.name.length ≤ 100)
    (fun r _ hn => hn) ops Store.empty ?_
  intro r hr
  simp [Store.empty] at hr

/-- C4, witness: one Create persists a short-named row. -/
theorem C4_name_length_invariant_witness :
    (Product.mk 1 "Widget" 10 5).name.length ≤ 100 :=
  C4_name_length_invariant [.create none "Widget" 10 5]
    ⟨1, "Widget", 10, 5⟩ (by decide)

/-- C5, counterexample: `float("nan")` passes `validate_product` — IEEE
comparisons with NaN are all false, so `price < 0` does not trigger — and
`create_product` therefore persists a record whose price satisfies neither
`price < 0` nor `price ≥ 0`. The claimed invariant `price ≥ 0` fails on
this reachable store. -/
theorem C5_counterexample :
    (Tp1.create_product none "Widget" PyFloat.nan 5 Store.empty).res =
      .ok ⟨1, "Widget", PyFloat.nan, 5⟩ ∧
    (Tp1.create_product none "Widget" PyFloat.nan 5 Store.empty).store.rows
      = [⟨1, "Widget", PyFloat.nan, 5⟩] ∧
    ¬ (0 : PyFloat) ≤ (⟨1, "Widget", PyFloat.nan, 5⟩ : Product).price := by
  decide

/-- C5, amended: every mutating operation preserves the per-row invariant
that the name is non-blank after stripping, the price never compares below
zero, and the quantity is non-negative; every store reachable from the
empty store satisfies it. For every non-NaN price "does not compare below
zero" is exactly `price ≥ 0`, as the last conjunct states; the claim's
`price ≥ 0` itself fails only because the program also accepts NaN, which
satisfies neither comparison (see the counterexample). -/
theorem C5_data_invariant :
    (∀ (s : Store) (o : Op), (∀ r ∈ s.rows, goodProduct r) →
      ∀ r ∈ (applyOp s o).rows, goodProduct r) ∧
    (∀ ops : List Op, ∀ r ∈ (runOps Store.empty ops).rows, goodProduct r) ∧
    (∀ v : Int, ¬ PyFloat.num v < (0 : PyFloat) ↔
      (0 : PyFloat) ≤ PyFloat.num v) := by
  have hnew : ∀ r : Product,
      Tp1.validate_product r.name r.price r.quantity = .ok () →
      r.name.length ≤ 100 → goodProduct r := by
    intro r hv _
    exact (Tp1.validate_product_ok _ _ _).mp hv
  refine ⟨?_, ?_, PyFloat.not_lt_zero_iff⟩
  · intro s o hs r hr
    rcases mem_applyOp_rows hr with h | ⟨hv, hn⟩
    · exact hs r h
    · exact hnew r hv hn
  · intro ops
    refine runOps_rows_pres goodProduct hnew ops Store.empty ?_
    intro r hr
    simp [Store.empty] at hr

/-- C5, witness: preservation applied at a singleton store and a concrete
reachable store. -/
theorem C5_data_invariant_witness :
    goodProduct ⟨1, "Widget", 10, 5⟩ :=
  C5_data_invariant.2.1 [.create none "Widget" 10 5]
    ⟨1, "Widget", 10, 5⟩ (by decide)

/-- C6, confirmed: a fault-free Update with valid inputs returns not-found
and leaves the whole store (rows, sequence, everything) untouched when no
row carries the id; when a row carries the id, exactly that row's name,
price and quantity are replaced (its id kept), every row with a different
id is still present unchanged, and the sequence value is unchanged. The
same holds for the SOAP UpdateProduct on valid ids. -/
theorem C6_update_frame (pid : Int) (n : String) (p : PyFloat) (q : Int) (s : Store)
    (hv : Tp1.validate_product n p q = .ok ()) (hn : n.length ≤ 100) :
    (s.rows.find? (fun x => x.id == pid) = none →
      Tp1.update_product none pid n p q s = ⟨.ok none, s, 1, 1, 0⟩) ∧
    (∀ r, s.rows.find? (fun x => x.id == pid) = some r →
      Tp1.update_product none pid n p q s =
        ⟨.ok (some ⟨r.id, n, p, q⟩),
         ⟨s.rows.map (fun x =>
            if x.id == pid then (⟨r.id, n, p, q⟩ : Product) else x),
          s.nextId⟩, 1, 1, 0⟩ ∧
      (∀ x ∈ s.rows, (x.id == pid) = false →
        x ∈ (Tp1.update_product none pid n p q s).store.rows)) ∧
    (0 < pid → Part2.validate_product n p q = .ok () →
      (s.rows.find? (fun x => x.id == pid) = none →
        Part2.UpdateProduct none pid n p q s =
          ⟨"Product not found", s, 1, 1, 0⟩) ∧
      (∀ r, s.rows.find? (fun x => x.id == pid) = some r →
        Part2.UpdateProduct none pid n p q s =
          ⟨"Product updated successfully (ID=" ++ (toString pid ++ ")"),
           ⟨s.rows.map (fun x =>
              if x.id == pid then (⟨r.id, n, p, q⟩ : Product) else x),
            s.nextId⟩, 1, 1, 0⟩)) := by
  refine ⟨?_, ?_, ?_⟩
  · intro hfind
    exact Tp1.update_product_not_found hv rfl hfind
  · intro r hfind
    refine ⟨Tp1.update_product_found hv rfl hfind hn, ?_⟩
    intro x hx hxe
    rw [Tp1.update_product_found hv rfl hfind hn]
    dsimp only
    refine List.mem_map.mpr ⟨x, hx, ?_⟩
    rw [if_neg (by simp [hxe])]
  · intro hpid hv2
    exact ⟨fun hfind => Part2.UpdateProduct_not_found hpid hv2 rfl hfind,
      fun r hfind => Part2.UpdateProduct_found hpid hv2 rfl hfind hn⟩

/-- C6, witness: updating the only row of a one-row store. -/
theorem C6_update_frame_witness :
    Tp1.update_product none 1 "Widget" 10 5 ⟨[⟨1, "Old", 5, 5⟩], 2⟩ =
      ⟨.ok (some ⟨1, "Widget", 10, 5⟩),
       ⟨[⟨1, "Widget", 10, 5⟩], 2⟩, 1, 1, 0⟩ :=
  (((C6_update_frame 1 "Widget" 10 5 ⟨[⟨1, "Old", 5, 5⟩], 2⟩
      ((Tp1.validate_product_ok _ _ _).mpr (by decide)) (by decide)).2.1
    ⟨1, "Old", 5, 5⟩ (by decide)).1).trans (by decide)

/-- C7, confirmed: on a well-formed store, a fault-free Create with valid
inputs returns the record with the store-assigned id `s.nextId`, and an
immediate Read of that id returns exactly that record. -/
theorem C7_create_read_roundtrip (n : String) (p : PyFloat) (q : Int) (s : Store)
    (hwf : s.wf) (hv : Tp1.validate_product n p q = .ok ())
    (hn : n.length ≤ 100) :
    (Tp1.create_product none n p q s).res =
      .ok ⟨s.nextId, n, p, q⟩ ∧
    (Tp1.get_product none s.nextId
        (Tp1.create_product none n p q s).store).res =
      .ok (some ⟨s.nextId, n, p, q⟩) := by
  have hc := Tp1.create_product_of_ok s hv rfl hn
  constructor
  · rw [hc]
  · rw [hc]
    unfold Tp1.get_product
    dsimp only
    rw [List.find?_append]
    have h0 : s.rows.find? (fun x => x.id == s.nextId) = none := by
      rw [List.find?_eq_none]
      intro x hx
      have := (hwf.2.1 x hx).2
      simp only [beq_iff_eq]
      omega
    rw [h0]
    simp [List.find?_cons]

/-- C7, witness at the empty store. -/
theorem C7_create_read_roundtrip_witness :
    (Tp1.create_product none "Widget" 10 5 Store.empty).res =
      .ok ⟨1, "Widget", 10, 5⟩ ∧
    (Tp1.get_product none 1
        (Tp1.create_product none "Widget" 10 5 Store.empty).store).res =
      .ok (some ⟨1, "Widget", 10, 5⟩) :=
  C7_create_read_roundtrip "Widget" 10 5 Store.empty (by decide)
    ((Tp1.validate_product_ok _ _ _).mpr (by decide)) (by decide)

/-- C8, confirmed: deleting an id no row carries returns `False`
(not-found, not an error) and leaves the store untouched, so iterating the
same Delete any number of times keeps the store fixed and keeps answering
`False`; the SOAP DeleteProduct answers "Product not found" likewise for
valid absent ids. -/
theorem C8_delete_absent (pid : Int) (s : Store)
    (habs : s.rows.find? (fun x => x.id == pid) = none) :
    Tp1.delete_product none pid s = ⟨.ok false, s, 1, 1, 0⟩ ∧
    (∀ k : Nat,
      (fun st => (Tp1.delete_product none pid st).store)^[k] s = s) ∧
    (0 < pid →
      Part2.DeleteProduct none pid s =
        ⟨"Product not found", s, 1, 1, 0⟩) := by
  have h1 := Tp1.delete_product_not_found habs
  refine ⟨h1, ?_, ?_⟩
  · intro k
    apply Function.iterate_fixed
    rw [h1]
  · intro hp
    exact Part2.DeleteProduct_not_found hp habs

/-- C8, witness: deleting id 5 from the empty store. -/
theorem C8_delete_absent_witness :
    Tp1.delete_product none 5 Store.empty =
      ⟨.ok false, Store.empty, 1, 1, 0⟩ ∧
    Part2.DeleteProduct none 5 Store.empty =
      ⟨"Product not found", Store.empty, 1, 1, 0⟩ :=
  ⟨(C8_delete_absent 5 Store.empty (by decide)).1,
   (C8_delete_absent 5 Store.empty (by decide)).2.2 (by decide)⟩

/-- C9, confirmed: List on the empty store returns the empty sequence (not
an error); on any store a fault-free List returns exactly the records
currently stored; and any script run from a well-formed store in which
every Create succeeds and every Delete succeeds (returns `True`) changes
the number of stored records by exactly (number of Creates) − (number of
Deletes). -/
theorem C9_list_counts :
    (Tp1.get_all_products none Store.empty).res = .ok [] ∧
    (∀ s : Store, (Tp1.get_all_products none s).res = .ok s.rows) ∧
    (∀ (ops : List Op) (s : Store), s.wf → scriptOk s ops = true →
      (runOps s ops).rows.length + countDeletes ops =
        s.rows.length + countCreates ops) := by
  refine ⟨rfl, fun s => rfl, ?_⟩
  intro ops
  induction ops with
  | nil =>
    intro s _ _
    simp [runOps, countDeletes, countCreates]
  | cons o rest ih =>
    intro s hwf hok
    simp only [scriptOk, Bool.and_eq_true] at hok
    obtain ⟨ho, hrest⟩ := hok
    have hrec := ih (applyOp s o) (wf_applyOp s o hwf) hrest
    simp only [runOps]
    cases o with
    | create f n p q =>
      simp only [opSucceeds] at ho
      cases hres : (Tp1.create_product f n p q s).res with
      | ok a =>
        obtain ⟨hv, hf, hn⟩ := Tp1.create_product_res_ok hres
        have hc := Tp1.create_product_of_ok s hv hf hn
        have hstore : applyOp s (Op.create f n p q) =
            ⟨s.rows ++ [⟨s.nextId, n, p, q⟩], s.nextId + 1⟩ := by
          simp only [applyOp]
          rw [hc]
        have hlen : (applyOp s (Op.create f n p q)).rows.length =
            s.rows.length + 1 := by
          rw [hstore]
          simp
        rw [hlen] at hrec
        simp only [countCreates, countDeletes]
        omega
      | valueError m =>
        rw [hres] at ho
        simp at ho
      | dbExn m =>
        rw [hres] at ho
        simp at ho
    | update f pid n p q =>
      have hlen : (applyOp s (Op.update f pid n p q)).rows.length =
          s.rows.length := by
        rcases Tp1.update_product_store f pid n p q s with h | ⟨r0, -, -, -, -, h⟩
        · simp only [applyOp]
          rw [h]
        · simp only [applyOp]
          rw [h]
          simp [List.length_map]
      rw [hlen] at hrec
      simp only [countCreates, countDeletes]
      omega
    | delete f pid =>
      simp only [opSucceeds] at ho
      cases hres : (Tp1.delete_product f pid s).res with
      | ok a =>
        cases a with
        | false =>
          rw [hres] at ho
          simp at ho
        | true =>
          obtain ⟨hf, r, hfind⟩ := Tp1.delete_product_res_true (by rw [hres])
          subst hf
          have hc := Tp1.delete_product_found hfind
          have hstore : applyOp s (Op.delete none pid) =
              ⟨s.rows.filter (fun x => x.id != pid), s.nextId⟩ := by
            simp only [applyOp]
            rw [hc]
          have hone := length_filter_found s.rows hwf.2.2 r hfind
          have hlen : (applyOp s (Op.delete none pid)).rows.length + 1 =
              s.rows.length := by
            rw [hstore]
            exact hone
          simp only [countCreates, countDeletes]
          omega
      | valueError m =>
        rw [hres] at ho
        simp at ho
      | dbExn m =>
        rw [hres] at ho
        simp at ho

/-- C9, witness: one Create then one Delete from the empty store. -/
theorem C9_list_counts_witness :
    (runOps Store.empty
        [.create none "Widget" 10 5, .delete none 1]).rows.length +
      countDeletes [.create none "Widget" 10 5, .delete none 1] =
    (Store.empty).rows.length +
      countCreates [.create none "Widget" 10 5, .delete none 1] :=
  C9_list_counts.2.2 [.create none "Widget" 10 5, .delete none 1]
    Store.empty (by decide) (by decide)

/-- C10, confirmed: each SOAP operation always returns a string (the
embedding of each method body is total — every `ValueError` and
`SQLAlchemyError` is caught by the method's `except` clause and rendered),
and the returned string begins with "Error: " exactly when a validation or
store failure occurred; success and not-found strings never carry that
marker. -/
theorem C10_soap_error_marking :
    (∀ (f : Option String) (n : String) (p : PyFloat) (q : Int) (s : Store),
      beginsWithError (Part2.CreateProduct f n p q s).res ↔
        (Part2.validate_product n p q ≠ .ok () ∨ f ≠ none ∨
          100 < n.length)) ∧
    (∀ (f : Option String) (pid : Int) (s : Store),
      beginsWithError (Part2.GetProduct f pid s).res ↔
        (pid ≤ 0 ∨ f ≠ none)) ∧
    (∀ (f : Option String) (pid : Int) (n : String) (p : PyFloat) (q : Int)
        (s : Store),
      beginsWithError (Part2.UpdateProduct f pid n p q s).res ↔
        (pid ≤ 0 ∨ Part2.validate_product n p q ≠ .ok () ∨ f ≠ none ∨
          ((s.rows.find? (fun x => x.id == pid)).isSome = true ∧
            100 < n.length))) ∧
    (∀ (f : Option String) (pid : Int) (s : Store),
      beginsWithError (Part2.DeleteProduct f pid s).res ↔
        (pid ≤ 0 ∨ f ≠ none)) := by
  refine ⟨?_, ?_, ?_, ?_⟩
  · intro f n p q s
    unfold Part2.CreateProduct
    split
    next m heq =>
      exact iff_of_true (beginsWithError_concat m)
        (Or.inl (by rw [heq]; simp))
    next u heq =>
      cases u
      split
      next m =>
        exact iff_of_true (beginsWithError_concat m)
          (Or.inr (Or.inl (by simp)))
      · split
        next hlen =>
          exact iff_of_true (beginsWithError_concat valueTooLong)
            (Or.inr (Or.inr hlen))
        next hlen =>
          refine iff_of_false (notErrorCreated _) ?_
          rintro (h | h | h)
          · exact h heq
          · exact h rfl
          · omega
  · intro f pid s
    unfold Part2.GetProduct
    split
    next m heq =>
      exact iff_of_true (beginsWithError_concat m)
        (Or.inl (Part2.validate_id_error_le heq))
    next u heq =>
      have hpos := Part2.validate_id_ok_pos heq
      split
      next m =>
        exact iff_of_true (beginsWithError_concat m) (Or.inr (by simp))
      · split
        next hfind =>
          refine iff_of_false notErrorNotFound ?_
          rintro (h | h)
          · omega
          · exact h rfl
        next r hfind =>
          refine iff_of_false (notErrorIdMsg _) ?_
          rintro (h | h)
          · omega
          · exact h rfl
  · intro f pid n p q s
    unfold Part2.UpdateProduct
    split
    next m heq =>
      exact iff_of_true (beginsWithError_concat m)
        (Or.inl (Part2.validate_id_error_le heq))
    next u heq =>
      have hpos := Part2.validate_id_ok_pos heq
      split
      next m heq2 =>
        exact iff_of_true (beginsWithError_concat m)
          (Or.inr (Or.inl (by rw [heq2]; simp)))
      next u2 heq2 =>
        cases u2
        split
        next m =>
          exact iff_of_true (beginsWithError_concat m)
            (Or.inr (Or.inr (Or.inl (by simp))))
        · split
          next hfind =>
            refine iff_of_false notErrorNotFound ?_
            rintro (h | h | h | ⟨hs, -⟩)
            · omega
            · exact h heq2
            · exact h rfl
            · rw [hfind] at hs
              simp at hs
          next r hfind =>
            split
            next hlen =>
              exact iff_of_true (beginsWithError_concat valueTooLong)
                (Or.inr (Or.inr (Or.inr ⟨by rw [hfind]; rfl, hlen⟩)))
            next hlen =>
              refine iff_of_false (notErrorUpdated _) ?_
              rintro (h | h | h | ⟨-, hl⟩)
              · omega
              · exact h heq2
              · exact h rfl
              · omega
  · intro f pid s
    unfold Part2.DeleteProduct
    split
    next m heq =>
      exact iff_of_true (beginsWithError_concat m)
        (Or.inl (Part2.validate_id_error_le heq))
    next u heq =>
      have hpos := Part2.validate_id_ok_pos heq
      split
      next m =>
        exact iff_of_true (beginsWithError_concat m) (Or.inr (by simp))
      · split
        next hfind =>
          refine iff_of_false notErrorNotFound ?_
          rintro (h | h)
          · omega
          · exact h rfl
        next r hfind =>
          refine iff_of_false (notErrorDeleted _) ?_
          rintro (h | h)
          · omega
          · exact h rfl
